import Mathlib

/-!
# Verification of the tudat radiation-pressure core

Shallow embedding of the electromagnetic radiation-pressure components of the
tudat repository:

* `src/astro/electromagnetism/reflectionLaw.cpp` — the specular/diffuse mix
  reflection law (`evaluateReflectedFraction`, `evaluateReactionVector`) and
  the mirror-like reflection utility (`computeMirrorlikeReflection`).
* `Tudat/Astrodynamics/ElectroMagnetism/panelledRadiationPressure.h` — the
  panelled radiation-pressure acceleration model with its time-stamped
  caching discipline (`updateMembers`).
* The cannonball and multi-panel radiation-pressure target models, whose
  source file is not part of the sample; they are modelled from the
  specification where noted.

Doubles are idealised as real numbers; the IEEE NaN sentinel `TUDAT_NAN`
used as "not-a-time" is modelled by `Option ℚ` with `none` playing the role
of NaN (NaN compares unequal to everything, including itself).
-/

open scoped Classical

/-- Three-component real vector, the embedding of `Eigen::Vector3d`. -/
@[ext]
structure Vec3 where
  x : ℝ
  y : ℝ
  z : ℝ

namespace Vec3

/-- Componentwise addition. -/
def add (a b : Vec3) : Vec3 := ⟨a.x + b.x, a.y + b.y, a.z + b.z⟩

/-- Componentwise subtraction. -/
def sub (a b : Vec3) : Vec3 := ⟨a.x - b.x, a.y - b.y, a.z - b.z⟩

/-- Componentwise negation (`-v`). -/
def neg (a : Vec3) : Vec3 := ⟨-a.x, -a.y, -a.z⟩

/-- Scalar multiplication (`c * v`). -/
def smul (c : ℝ) (a : Vec3) : Vec3 := ⟨c * a.x, c * a.y, c * a.z⟩

/-- Dot product (`a.dot(b)`). -/
def dot (a b : Vec3) : ℝ := a.x * b.x + a.y * b.y + a.z * b.z

/-- The zero vector (`Eigen::Vector3d::Zero()`). -/
def zero : Vec3 := ⟨0, 0, 0⟩

/-- Squared Euclidean norm (`v.squaredNorm()`). -/
def squaredNorm (a : Vec3) : ℝ := a.dot a

/-- Euclidean norm (`v.norm()`). -/
noncomputable def norm (a : Vec3) : ℝ := Real.sqrt a.squaredNorm

/-- In-place normalisation (`v.normalize()`): division by the norm. -/
noncomputable def normalize (a : Vec3) : Vec3 := smul (1 / a.norm) a

/-- Eigen's default `dummy_precision` for `double`, used by `isApprox`. -/
def dummyPrecision : ℝ := 1e-12

/-- Eigen's fuzzy comparison `a.isApprox(b)` at the default precision:
`(a - b).squaredNorm() <= prec^2 * min(a.squaredNorm(), b.squaredNorm())`. -/
def isApprox (a b : Vec3) : Prop :=
  (a.sub b).squaredNorm ≤ dummyPrecision ^ 2 * min a.squaredNorm b.squaredNorm

end Vec3

/-- Sum of a list of vectors, accumulated left to right from zero
(the embedding of a `+=` accumulation loop). -/
def vecSum (l : List Vec3) : Vec3 := l.foldl Vec3.add Vec3.zero

namespace electromagnetism

/-- The specular/diffuse mix reflection law
(`tudat::electromagnetism::SpecularDiffuseMixReflectionLaw`): immutable
reflectivity coefficients and the instantaneous-reradiation flag. -/
structure SpecularDiffuseMixReflectionLaw where
  specularReflectivity : ℝ
  diffuseReflectivity : ℝ
  absorptivity : ℝ
  withInstantaneousLambertianReradiation : Bool

/-- Embedding of `computeMirrorlikeReflection(vectorToMirror, surfaceNormal)` from
`reflectionLaw.cpp`: zero when the dot product is nonnegative, otherwise the
mirrored vector `v - 2 (v·n) n`. -/
noncomputable def computeMirrorlikeReflection (vectorToMirror surfaceNormal : Vec3) : Vec3 :=
  let vectorDotNormal := vectorToMirror.dot surfaceNormal
  if 0 ≤ vectorDotNormal then
    Vec3.zero
  else
    vectorToMirror.sub (Vec3.smul (2 * vectorDotNormal) surfaceNormal)

/-- Embedding of `SpecularDiffuseMixReflectionLaw::evaluateReflectedFraction` from
`reflectionLaw.cpp`: zero if the radiation or the observer is behind the
panel, otherwise the diffuse reflectance `diffuseReflectivity / π`, plus the
specular reflectance `specularReflectivity / cosIn` when the observer
direction matches (Eigen `isApprox`) the mirror of the incoming direction. -/
noncomputable def evaluateReflectedFraction (law : SpecularDiffuseMixReflectionLaw)
    (surfaceNormal incomingDirection observerDirection : Vec3) : ℝ :=
  let cosBetweenNormalAndIncoming := surfaceNormal.dot incomingDirection.neg
  let cosBetweenNormalAndObserver := surfaceNormal.dot observerDirection
  if cosBetweenNormalAndIncoming ≤ 0 ∨ cosBetweenNormalAndObserver ≤ 0 then
    0
  else
    let diffuseReflectance := law.diffuseReflectivity / Real.pi
    let mirrorOfIncomingDirection := computeMirrorlikeReflection incomingDirection surfaceNormal
    if observerDirection.isApprox mirrorOfIncomingDirection then
      diffuseReflectance + law.specularReflectivity / cosBetweenNormalAndIncoming
    else
      diffuseReflectance

/-- Embedding of `SpecularDiffuseMixReflectionLaw::evaluateReactionVector` from
`reflectionLaw.cpp`: zero for backside incidence, otherwise the sum of the
incidence, reflection and (optional) instantaneous-reradiation terms. -/
noncomputable def evaluateReactionVector (law : SpecularDiffuseMixReflectionLaw)
    (surfaceNormal incomingDirection : Vec3) : Vec3 :=
  let cosBetweenNormalAndIncoming := surfaceNormal.dot incomingDirection.neg
  if cosBetweenNormalAndIncoming ≤ 0 then
    Vec3.zero
  else
    let reactionFromIncidence :=
      Vec3.smul (law.absorptivity + law.diffuseReflectivity) incomingDirection
    let reactionFromReflection :=
      Vec3.smul (-(2 / 3 * law.diffuseReflectivity
          + 2 * law.specularReflectivity * cosBetweenNormalAndIncoming)) surfaceNormal
    let reactionFromInstantaneousReradiation :=
      if law.withInstantaneousLambertianReradiation then
        Vec3.smul (-(2 / 3 * law.absorptivity)) surfaceNormal
      else
        Vec3.zero
    (reactionFromIncidence.add reactionFromReflection).add reactionFromInstantaneousReradiation

/-- Speed of light in vacuum, `physical_constants::SPEED_OF_LIGHT` (m/s). -/
def SPEED_OF_LIGHT : ℝ := 299792458

/-- Modelled from the spec: `CannonballRadiationPressureTargetModel`'s
`evaluateRadiationPressureForce` (the source file
`radiationPressureTargetModel.cpp` is not part of the sample; contract from
spec §4.3): `force = (irradiance / speedOfLight) · referenceArea ·
radiationPressureCoefficient · sourceToTargetDirection`. -/
noncomputable def cannonballEvaluateRadiationPressureForce
    (referenceArea radiationPressureCoefficient irradiance : ℝ)
    (sourceToTargetDirection : Vec3) : Vec3 :=
  Vec3.smul (irradiance / SPEED_OF_LIGHT * referenceArea * radiationPressureCoefficient)
    sourceToTargetDirection

/-- A panel of the multi-panel target model: area, unit surface normal, and a
shared reflection law (`PaneledRadiationPressureTargetModel::Panel`). -/
structure TargetPanel where
  area : ℝ
  surfaceNormal : Vec3
  reflectionLaw : SpecularDiffuseMixReflectionLaw

/-- Modelled from the spec: `PaneledRadiationPressureTargetModel`'s
`evaluateRadiationPressureForce` (the source file
`radiationPressureTargetModel.cpp` is not part of the sample; contract from
spec §4.4): for each panel accumulate
`(irradiance / speedOfLight) · panel.area · reactionVector`, where the
reaction vector is the one computed by `reflectionLaw.cpp`. -/
noncomputable def paneledEvaluateRadiationPressureForce (panels : List TargetPanel)
    (irradiance : ℝ) (sourceToTargetDirection : Vec3) : Vec3 :=
  panels.foldl
    (fun force panel =>
      force.add (Vec3.smul (irradiance / SPEED_OF_LIGHT * panel.area)
        (evaluateReactionVector panel.reflectionLaw panel.surfaceNormal sourceToTargetDirection)))
    Vec3.zero

end electromagnetism

namespace electro_magnetism

/-- Simulation epochs are embedded as rationals (doubles without NaN);
`none` stands for the IEEE NaN sentinel `TUDAT_NAN`, the "not-a-time"
value. -/
abbrev Time := Option ℚ

/-- IEEE `==` on times: NaN (`none`) compares unequal to everything,
including itself; ordinary times compare by value. This is the embedding of
`this->currentTime_ == currentTime` on doubles. -/
def timeEq : Time → Time → Bool
  | some a, some b => a == b
  | _, _ => false

/-- The values produced by the `boost::function` providers held by
`PanelledRadiationPressureAcceleration` during one `updateMembers` call
(spec §5: collaborator calls are synchronous and side-effect-free, so each
provider returns one value per call). Per-panel providers are indexed. -/
structure Providers where
  sourcePosition : Vec3
  acceleratedBodyPosition : Vec3
  radiationPressure : ℝ
  mass : ℝ
  panelSurfaceNormal : ℕ → Vec3
  panelArea : ℕ → ℝ
  panelEmissivity : ℕ → ℝ
  panelDiffuseReflectionCoefficient : ℕ → ℝ

/-- Mutable state of `PanelledRadiationPressureAcceleration`: the cached
time from the `AccelerationModel` base class plus all `current..._`
members set by `updateMembers`. -/
structure AccelModelState where
  currentTime : Time
  currentNormalizedVectorToSource : Vec3
  currentDistanceToSource : ℝ
  currentRadiationPressure : ℝ
  currentMass : ℝ
  currentPanelAccelerations : List Vec3
  currentAcceleration : Vec3

/-- Modelled from the spec: the state right after construction. The
`AccelerationModel` base class (not part of the sample) initialises the
cached time to the "always recompute" sentinel `TUDAT_NAN` (spec §7:
"caches initialized to the 'always recompute' sentinel so the first call
always computes"); the remaining doubles and the resized panel-acceleration
vector are uninitialised storage, taken here as parameters. -/
def initialState (uninitVec : Vec3) (uninitDist uninitPressure uninitMass : ℝ)
    (uninitPanelAccelerations : List Vec3) (uninitAcceleration : Vec3) : AccelModelState :=
  { currentTime := none
    currentNormalizedVectorToSource := uninitVec
    currentDistanceToSource := uninitDist
    currentRadiationPressure := uninitPressure
    currentMass := uninitMass
    currentPanelAccelerations := uninitPanelAccelerations
    currentAcceleration := uninitAcceleration }

/-- The recomputation branch of
`PanelledRadiationPressureAcceleration::updateMembers`
(`panelledRadiationPressure.h` lines 131–152): recompute the source
direction and distance, re-read radiation pressure and mass, zero the total
acceleration, and when the radiation pressure is positive recompute every
panel acceleration through `computeSinglePanelNormalizedRadiationPressureForce`
(whose body is not part of the sample; it is kept abstract as the parameter
`panelForce`) and accumulate the total. -/
noncomputable def recomputeMembers (numberOfPanels : ℕ)
    (panelForce : Vec3 → Vec3 → ℝ → ℝ → ℝ → Vec3)
    (p : Providers) (s : AccelModelState) (currentTime : Time) : AccelModelState :=
  let vectorToSource := p.sourcePosition.sub p.acceleratedBodyPosition
  let currentDistanceToSource := vectorToSource.norm
  let currentNormalizedVectorToSource := vectorToSource.normalize
  let currentRadiationPressure := p.radiationPressure
  let currentMass := p.mass
  if 0 < currentRadiationPressure then
    let panelAccelerations :=
      (List.range numberOfPanels).map fun i =>
        Vec3.smul (currentRadiationPressure / p.mass)
          (panelForce currentNormalizedVectorToSource (p.panelSurfaceNormal i)
            (p.panelArea i) (p.panelEmissivity i) (p.panelDiffuseReflectionCoefficient i))
    { currentTime := currentTime
      currentNormalizedVectorToSource := currentNormalizedVectorToSource
      currentDistanceToSource := currentDistanceToSource
      currentRadiationPressure := currentRadiationPressure
      currentMass := currentMass
      currentPanelAccelerations := panelAccelerations
      currentAcceleration := vecSum panelAccelerations }
  else
    { currentTime := currentTime
      currentNormalizedVectorToSource := currentNormalizedVectorToSource
      currentDistanceToSource := currentDistanceToSource
      currentRadiationPressure := currentRadiationPressure
      currentMass := currentMass
      currentPanelAccelerations := s.currentPanelAccelerations
      currentAcceleration := Vec3.zero }

/-- Embedding of `PanelledRadiationPressureAcceleration::updateMembers`: if the cached
time IEEE-compares equal to the requested time, the whole body is skipped
and the state (hence every cached quantity) is untouched; otherwise all
members are recomputed and the time is cached. -/
noncomputable def updateMembers (numberOfPanels : ℕ)
    (panelForce : Vec3 → Vec3 → ℝ → ℝ → ℝ → Vec3)
    (p : Providers) (s : AccelModelState) (currentTime : Time) : AccelModelState :=
  if timeEq s.currentTime currentTime then
    s
  else
    recomputeMembers numberOfPanels panelForce p s currentTime

/-- Embedding of `PanelledRadiationPressureAcceleration::getAcceleration`. -/
def getAcceleration (s : AccelModelState) : Vec3 := s.currentAcceleration

/-- Embedding of `PanelledRadiationPressureAcceleration::getCurrentPanelAcceleration`:
indexing into the stored per-panel accelerations. -/
def getCurrentPanelAcceleration (s : AccelModelState) (panelIndex : ℕ) : Vec3 :=
  s.currentPanelAccelerations.getD panelIndex Vec3.zero

end electro_magnetism

open electromagnetism electro_magnetism

@[simp]
theorem Vec3.add_zero_vec (a : Vec3) : a.add Vec3.zero = a := by
  ext <;> simp [Vec3.add, Vec3.zero]

@[simp]
theorem Vec3.zero_add_vec (a : Vec3) : Vec3.zero.add a = a := by
  ext <;> simp [Vec3.add, Vec3.zero]

@[simp]
theorem Vec3.smul_zero_vec (c : ℝ) : Vec3.smul c Vec3.zero = Vec3.zero := by
  ext <;> simp [Vec3.smul, Vec3.zero]

/-- C3: `computeMirrorlikeReflection(v, n)` returns the zero vector when
`v · n ≥ 0`, and otherwise returns `v − 2 (v · n) n`. (It is a plain function
of its two arguments, hence side-effect free.) -/
theorem claim_C3_computeMirrorlikeReflection (v n : Vec3) :
    (0 ≤ v.dot n → computeMirrorlikeReflection v n = Vec3.zero) ∧
    (v.dot n < 0 →
      computeMirrorlikeReflection v n = v.sub (Vec3.smul (2 * v.dot n) n)) := by
  constructor
  · intro h
    simp [computeMirrorlikeReflection, h]
  · intro h
    simp [computeMirrorlikeReflection, not_le.mpr h]

/-- Witness for C3: a ray travelling along `-z` onto the `+z`-normal plane
reflects to `+z`. -/
theorem claim_C3_witness :
    computeMirrorlikeReflection ⟨0, 0, -1⟩ ⟨0, 0, 1⟩ = ⟨0, 0, 1⟩ := by
  refine ((claim_C3_computeMirrorlikeReflection ⟨0, 0, -1⟩ ⟨0, 0, 1⟩).2 ?_).trans ?_
  · norm_num [Vec3.dot]
  · ext <;> norm_num [Vec3.dot, Vec3.sub, Vec3.smul]

/-- C1: `SpecularDiffuseMixReflectionLaw::evaluateReactionVector` returns
the zero vector when `cIn = n · (−d) ≤ 0`, and otherwise returns
`(absorptivity + diffuseReflectivity)·d − (2/3·diffuseReflectivity +
2·specularReflectivity·cIn)·n`, plus `−(2/3·absorptivity)·n` exactly when
`withInstantaneousLambertianReradiation` is set. -/
theorem claim_C1_evaluateReactionVector (law : SpecularDiffuseMixReflectionLaw) (n d : Vec3) :
    (n.dot d.neg ≤ 0 → evaluateReactionVector law n d = Vec3.zero) ∧
    (0 < n.dot d.neg →
      (law.withInstantaneousLambertianReradiation = true →
        evaluateReactionVector law n d =
          ((Vec3.smul (law.absorptivity + law.diffuseReflectivity) d).add
            (Vec3.smul (-(2 / 3 * law.diffuseReflectivity
              + 2 * law.specularReflectivity * (n.dot d.neg))) n)).add
            (Vec3.smul (-(2 / 3 * law.absorptivity)) n)) ∧
      (law.withInstantaneousLambertianReradiation = false →
        evaluateReactionVector law n d =
          (Vec3.smul (law.absorptivity + law.diffuseReflectivity) d).add
            (Vec3.smul (-(2 / 3 * law.diffuseReflectivity
              + 2 * law.specularReflectivity * (n.dot d.neg))) n))) := by
  refine ⟨fun h => by simp [evaluateReactionVector, h], fun h => ⟨fun hre => ?_, fun hre => ?_⟩⟩
  · simp [evaluateReactionVector, not_le.mpr h, hre]
  · simp [evaluateReactionVector, not_le.mpr h, hre]

/-- Witness for C1: a fully absorbing law without reradiation, normal `+z`,
radiation travelling along `-z`: the reaction is the incoming direction. -/
theorem claim_C1_witness :
    evaluateReactionVector ⟨0, 0, 1, false⟩ ⟨0, 0, 1⟩ ⟨0, 0, -1⟩ = ⟨0, 0, -1⟩ := by
  refine (((claim_C1_evaluateReactionVector ⟨0, 0, 1, false⟩ ⟨0, 0, 1⟩ ⟨0, 0, -1⟩).2
    ?_).2 rfl).trans ?_
  · norm_num [Vec3.dot, Vec3.neg]
  · ext <;> norm_num [Vec3.dot, Vec3.neg, Vec3.add, Vec3.smul]

/-- C4 counterexample: the claim requires the specular term to be added
only when the observer direction *exactly* equals the mirror direction, but
the code uses Eigen's fuzzy `isApprox`. With a purely specular law
(specular 0.6, diffuse 0) and an observer direction `(0,0,1+1e-13)` that
differs from the exact mirror direction `(0,0,1)`, the function returns
`0.6`, not the claimed `diffuseReflectivity/π = 0`. -/
theorem claim_C4_counterexample :
    (⟨0, 0, 1 + 1e-13⟩ : Vec3) ≠ computeMirrorlikeReflection ⟨0, 0, -1⟩ ⟨0, 0, 1⟩ ∧
    evaluateReflectedFraction ⟨0.6, 0, 0.4, false⟩ ⟨0, 0, 1⟩ ⟨0, 0, -1⟩ ⟨0, 0, 1 + 1e-13⟩
      = 0.6 ∧
    (0.6 : ℝ) ≠ (0 : ℝ) / Real.pi := by
  have hmirror : computeMirrorlikeReflection ⟨0, 0, -1⟩ ⟨0, 0, 1⟩ = (⟨0, 0, 1⟩ : Vec3) := by
    rw [computeMirrorlikeReflection]
    norm_num [Vec3.dot]
    ext <;> norm_num [Vec3.sub, Vec3.smul]
  refine ⟨?_, ?_, by norm_num⟩
  · rw [hmirror]
    intro hcontr
    have := congrArg Vec3.z hcontr
    norm_num at this
  · rw [evaluateReflectedFraction]
    norm_num [Vec3.dot, Vec3.neg]
    rw [hmirror, Vec3.isApprox]
    norm_num [Vec3.sub, Vec3.squaredNorm, Vec3.dot, Vec3.dummyPrecision, min_def]

/-- C4 amended: `evaluateReflectedFraction` returns 0 when
`cIn = n · (−d) ≤ 0` or `cObs = n · obs ≤ 0`; otherwise it returns
`diffuseReflectivity/π`, with `specularReflectivity/cIn` added if and only
if the observer direction is approximately equal (Eigen `isApprox`,
relative precision 1e-12) to the mirror direction of the incoming direction
about the normal; for nonnegative reflectivities the result is ≥ 0. -/
theorem claim_C4_evaluateReflectedFraction_amended (law : SpecularDiffuseMixReflectionLaw)
    (n d obs : Vec3) (hs : 0 ≤ law.specularReflectivity) (hd : 0 ≤ law.diffuseReflectivity) :
    (n.dot d.neg ≤ 0 ∨ n.dot obs ≤ 0 → evaluateReflectedFraction law n d obs = 0) ∧
    (0 < n.dot d.neg → 0 < n.dot obs →
      (obs.isApprox (computeMirrorlikeReflection d n) →
        evaluateReflectedFraction law n d obs =
          law.diffuseReflectivity / Real.pi + law.specularReflectivity / n.dot d.neg) ∧
      (¬ obs.isApprox (computeMirrorlikeReflection d n) →
        evaluateReflectedFraction law n d obs = law.diffuseReflectivity / Real.pi)) ∧
    0 ≤ evaluateReflectedFraction law n d obs := by
  refine ⟨fun h => by simp [evaluateReflectedFraction, h],
    fun h1 h2 => ⟨fun ha => ?_, fun ha => ?_⟩, ?_⟩
  · simp [evaluateReflectedFraction, not_le.mpr h1, not_le.mpr h2, ha]
  · simp [evaluateReflectedFraction, not_le.mpr h1, not_le.mpr h2, ha]
  · simp only [evaluateReflectedFraction]
    split_ifs with h1 h2
    · exact le_rfl
    · push_neg at h1
      exact add_nonneg (div_nonneg hd Real.pi_pos.le) (div_nonneg hs h1.1.le)
    · exact div_nonneg hd Real.pi_pos.le

/-- Witness for amended C4: observer exactly in the mirror path of radiation
incident along `-z` on a `+z`-normal panel receives the diffuse reflectance
plus the full specular reflectance. -/
theorem claim_C4_witness :
    evaluateReflectedFraction ⟨0.3, 0.2, 0.5, true⟩ ⟨0, 0, 1⟩ ⟨0, 0, -1⟩ ⟨0, 0, 1⟩
      = 0.2 / Real.pi + 0.3 := by
  refine (((claim_C4_evaluateReflectedFraction_amended ⟨0.3, 0.2, 0.5, true⟩
    ⟨0, 0, 1⟩ ⟨0, 0, -1⟩ ⟨0, 0, 1⟩ (by norm_num) (by norm_num)).2.1
    ?_ ?_).1 ?_).trans ?_
  · norm_num [Vec3.dot, Vec3.neg]
  · norm_num [Vec3.dot]
  · rw [computeMirrorlikeReflection]
    norm_num [Vec3.dot]
    rw [Vec3.isApprox]
    norm_num [Vec3.sub, Vec3.smul, Vec3.squaredNorm, Vec3.dot, Vec3.dummyPrecision, min_def]
  · norm_num [Vec3.dot, Vec3.neg]

/-- C7: the cannonball target model's force is
`(irradiance / speedOfLight) · referenceArea · radiationPressureCoefficient
· sourceToTargetDirection`, and a zero radiation-pressure coefficient gives
exactly the zero vector. -/
theorem claim_C7_cannonballForce (referenceArea radiationPressureCoefficient irradiance : ℝ)
    (d : Vec3) :
    cannonballEvaluateRadiationPressureForce referenceArea radiationPressureCoefficient
        irradiance d =
      Vec3.smul (irradiance / SPEED_OF_LIGHT * referenceArea * radiationPressureCoefficient) d ∧
    cannonballEvaluateRadiationPressureForce referenceArea 0 irradiance d = Vec3.zero := by
  refine ⟨rfl, ?_⟩
  ext <;> simp [cannonballEvaluateRadiationPressureForce, Vec3.smul, Vec3.zero]

/-- C2: a single panel of area `A` whose normal is exactly opposite the
(unit) incoming direction, under the specular-0.6 / diffuse-0 law
(absorptivity 0.4, no reradiation), produces for every irradiance exactly
the force of a cannonball model of area `A` and coefficient `1.6`. -/
theorem claim_C2_singlePanelCannonballEquivalence (A irradiance : ℝ) (d : Vec3)
    (hunit : d.dot d = 1) :
    paneledEvaluateRadiationPressureForce [⟨A, d.neg, ⟨0.6, 0, 0.4, false⟩⟩] irradiance d =
      cannonballEvaluateRadiationPressureForce A 1.6 irradiance d := by
  have hcIn : Vec3.dot (Vec3.neg d) (Vec3.neg d) = 1 := by
    simp only [Vec3.dot, Vec3.neg] at hunit ⊢
    nlinarith [hunit]
  simp only [paneledEvaluateRadiationPressureForce, List.foldl,
    cannonballEvaluateRadiationPressureForce, evaluateReactionVector]
  rw [hcIn, if_neg (by norm_num : ¬(1 : ℝ) ≤ 0)]
  ext <;> simp [Vec3.add, Vec3.smul, Vec3.neg, Vec3.zero] <;> ring

/-- Witness for C2: concrete area 2, irradiance 1000, incoming direction
along `+x`. -/
theorem claim_C2_witness :
    paneledEvaluateRadiationPressureForce
        [⟨2, Vec3.neg ⟨1, 0, 0⟩, ⟨0.6, 0, 0.4, false⟩⟩] 1000 ⟨1, 0, 0⟩ =
      cannonballEvaluateRadiationPressureForce 2 1.6 1000 ⟨1, 0, 0⟩ :=
  claim_C2_singlePanelCannonballEquivalence 2 1000 ⟨1, 0, 0⟩ (by norm_num [Vec3.dot])

/-- The accumulation loop of the multi-panel force model leaves the
accumulator unchanged when every panel's reaction vector is zero. -/
theorem paneled_foldl_of_zero_reactions (panels : List TargetPanel) (irradiance : ℝ) (d : Vec3)
    (h : ∀ panel ∈ panels,
      evaluateReactionVector panel.reflectionLaw panel.surfaceNormal d = Vec3.zero) :
    ∀ acc, panels.foldl
      (fun (force : Vec3) (panel : TargetPanel) =>
        force.add (Vec3.smul (irradiance / SPEED_OF_LIGHT * panel.area)
          (evaluateReactionVector panel.reflectionLaw panel.surfaceNormal d))) acc = acc := by
  induction panels with
  | nil => intro acc; rfl
  | cons p ps ih =>
    intro acc
    simp only [List.foldl]
    rw [h p (List.mem_cons_self p ps), Vec3.smul_zero_vec, Vec3.add_zero_vec]
    exact ih (fun q hq => h q (List.mem_cons_of_mem p hq)) acc

/-- C6: when every panel's normal has non-positive dot product with the
negated incoming direction, each panel's reaction vector is zero and the
aggregate multi-panel force is exactly zero, for every irradiance. -/
theorem claim_C6_backsideCulling (panels : List TargetPanel) (irradiance : ℝ) (d : Vec3)
    (h : ∀ panel ∈ panels, panel.surfaceNormal.dot d.neg ≤ 0) :
    (∀ panel ∈ panels,
      evaluateReactionVector panel.reflectionLaw panel.surfaceNormal d = Vec3.zero) ∧
    paneledEvaluateRadiationPressureForce panels irradiance d = Vec3.zero := by
  have hz : ∀ panel ∈ panels,
      evaluateReactionVector panel.reflectionLaw panel.surfaceNormal d = Vec3.zero := by
    intro p hp
    simp [evaluateReactionVector, h p hp]
  exact ⟨hz, paneled_foldl_of_zero_reactions panels irradiance d hz Vec3.zero⟩

/-- Witness for C6: one panel facing `-z` with radiation also incoming along
`-z` (panel faces away from the source) yields zero aggregate force. -/
theorem claim_C6_witness :
    paneledEvaluateRadiationPressureForce
        [⟨1, ⟨0, 0, -1⟩, ⟨0.2, 0.4, 0.4, false⟩⟩] 1000 ⟨0, 0, -1⟩ = Vec3.zero := by
  refine (claim_C6_backsideCulling [⟨1, ⟨0, 0, -1⟩, ⟨0.2, 0.4, 0.4, false⟩⟩]
    1000 ⟨0, 0, -1⟩ ?_).2
  rintro p hp
  simp only [List.mem_singleton] at hp
  subst hp
  norm_num [Vec3.dot, Vec3.neg]

theorem timeEq_none_right (t : Time) : timeEq t none = false := by
  cases t <;> rfl

theorem timeEq_none_left (t : Time) : timeEq none t = false := by
  cases t <;> rfl

theorem timeEq_some_self (t : ℚ) : timeEq (some t) (some t) = true := by
  simp [timeEq]

theorem recomputeMembers_currentTime (numberOfPanels : ℕ)
    (panelForce : Vec3 → Vec3 → ℝ → ℝ → ℝ → Vec3) (p : Providers)
    (s : AccelModelState) (t : Time) :
    (recomputeMembers numberOfPanels panelForce p s t).currentTime = t := by
  simp only [recomputeMembers]
  split <;> rfl

/-- The call `updateMembers` is skipped entirely when the requested time IEEE-compares
equal to the cached one. -/
theorem updateMembers_of_timeEq (numberOfPanels : ℕ)
    (panelForce : Vec3 → Vec3 → ℝ → ℝ → ℝ → Vec3) (p : Providers)
    (s : AccelModelState) (t : Time) (h : timeEq s.currentTime t = true) :
    updateMembers numberOfPanels panelForce p s t = s := by
  simp [updateMembers, h]

/-- After any `updateMembers` call at an ordinary (non-NaN) time, the cached
time IEEE-compares equal to that time. -/
theorem updateMembers_timeEq_some (numberOfPanels : ℕ)
    (panelForce : Vec3 → Vec3 → ℝ → ℝ → ℝ → Vec3) (p : Providers)
    (s : AccelModelState) (t : ℚ) :
    timeEq (updateMembers numberOfPanels panelForce p s (some t)).currentTime (some t)
      = true := by
  rw [updateMembers]
  split
  · next h => exact h
  · rw [recomputeMembers_currentTime]
    exact timeEq_some_self t

/-- C5: a repeated `updateMembers` call at the last-cached time leaves the
whole cached state unchanged and is independent of every provider value and
of the panel-force routine (none of them is invoked); hence two consecutive
evaluations at the same time return identical results. -/
theorem claim_C5_idempotentCaching (numberOfPanels : ℕ)
    (panelForce panelForce' : Vec3 → Vec3 → ℝ → ℝ → ℝ → Vec3)
    (p p' : Providers) (s : AccelModelState) (t : ℚ) :
    (s.currentTime = some t → updateMembers numberOfPanels panelForce p s (some t) = s) ∧
    updateMembers numberOfPanels panelForce' p'
        (updateMembers numberOfPanels panelForce p s (some t)) (some t) =
      updateMembers numberOfPanels panelForce p s (some t) := by
  constructor
  · intro h
    exact updateMembers_of_timeEq numberOfPanels panelForce p s (some t)
      (by rw [h]; exact timeEq_some_self t)
  · exact updateMembers_of_timeEq numberOfPanels panelForce' p' _ (some t)
      (updateMembers_timeEq_some numberOfPanels panelForce p s t)

/-- Witness for C5: with the cached time already `0`, a repeated call at time
`0` returns the state untouched. -/
theorem claim_C5_witness :
    updateMembers 1 (fun _ _ _ _ _ => Vec3.zero)
        ⟨Vec3.zero, Vec3.zero, 1, 1, fun _ => Vec3.zero, fun _ => 1, fun _ => 1, fun _ => 1⟩
        ⟨some 0, Vec3.zero, 0, 0, 0, [Vec3.zero], Vec3.zero⟩ (some 0) =
      ⟨some 0, Vec3.zero, 0, 0, 0, [Vec3.zero], Vec3.zero⟩ :=
  (claim_C5_idempotentCaching 1 (fun _ _ _ _ _ => Vec3.zero) (fun _ _ _ _ _ => Vec3.zero)
    ⟨Vec3.zero, Vec3.zero, 1, 1, fun _ => Vec3.zero, fun _ => 1, fun _ => 1, fun _ => 1⟩
    ⟨Vec3.zero, Vec3.zero, 1, 1, fun _ => Vec3.zero, fun _ => 1, fun _ => 1, fun _ => 1⟩
    ⟨some 0, Vec3.zero, 0, 0, 0, [Vec3.zero], Vec3.zero⟩ 0).1 rfl

/-- C8: calling `updateMembers` with the NaN sentinel always takes the
recomputation path, whatever the cached time; and the state after
construction carries the sentinel as cached time, so the very first call
(at any requested time) also recomputes. -/
theorem claim_C8_sentinelForcesRecompute (numberOfPanels : ℕ)
    (panelForce : Vec3 → Vec3 → ℝ → ℝ → ℝ → Vec3) (p : Providers)
    (s : AccelModelState) (t : Time) (uninitVec : Vec3)
    (uninitDist uninitPressure uninitMass : ℝ)
    (uninitPanelAccelerations : List Vec3) (uninitAcceleration : Vec3) :
    updateMembers numberOfPanels panelForce p s none =
      recomputeMembers numberOfPanels panelForce p s none ∧
    (initialState uninitVec uninitDist uninitPressure uninitMass
        uninitPanelAccelerations uninitAcceleration).currentTime = none ∧
    updateMembers numberOfPanels panelForce p
        (initialState uninitVec uninitDist uninitPressure uninitMass
          uninitPanelAccelerations uninitAcceleration) t =
      recomputeMembers numberOfPanels panelForce p
        (initialState uninitVec uninitDist uninitPressure uninitMass
          uninitPanelAccelerations uninitAcceleration) t := by
  refine ⟨?_, rfl, ?_⟩
  · simp [updateMembers, timeEq_none_right]
  · simp [updateMembers, initialState, timeEq_none_left]

/-- When the requested time does not IEEE-compare equal to the cached one,
`updateMembers` takes the recomputation path. -/
theorem updateMembers_of_timeNe (numberOfPanels : ℕ)
    (panelForce : Vec3 → Vec3 → ℝ → ℝ → ℝ → Vec3) (p : Providers)
    (s : AccelModelState) (t : Time) (h : timeEq s.currentTime t = false) :
    updateMembers numberOfPanels panelForce p s t =
      recomputeMembers numberOfPanels panelForce p s t := by
  simp [updateMembers, h]

/-- Reading back every slot of a list of length `n` reproduces the list. -/
theorem map_range_getD_map_range (g : ℕ → Vec3) (n : ℕ) :
    ((List.range n).map fun i => ((List.range n).map g).getD i Vec3.zero) =
      (List.range n).map g := by
  apply List.map_congr_left
  intro i hi
  have hilt : i < n := List.mem_range.mp hi
  rw [List.getD_eq_getElem _ _ (by simpa using hilt)]
  simp

/-- C9: after an `updateMembers` call with a new time at which the
radiation pressure is positive, the total acceleration returned by
`getAcceleration` is the sum over all panel indices of
`getCurrentPanelAcceleration`. -/
theorem claim_C9_totalIsSumOfPanelAccelerations (numberOfPanels : ℕ)
    (panelForce : Vec3 → Vec3 → ℝ → ℝ → ℝ → Vec3) (p : Providers)
    (s : AccelModelState) (t : Time) (hnew : timeEq s.currentTime t = false)
    (hpos : 0 < p.radiationPressure) :
    getAcceleration (updateMembers numberOfPanels panelForce p s t) =
      vecSum ((List.range numberOfPanels).map fun i =>
        getCurrentPanelAcceleration (updateMembers numberOfPanels panelForce p s t) i) := by
  rw [updateMembers_of_timeNe numberOfPanels panelForce p s t hnew]
  simp only [recomputeMembers]
  rw [if_pos hpos]
  simp only [getAcceleration, getCurrentPanelAcceleration]
  rw [map_range_getD_map_range]

/-- Witness for C9: one panel, unit pressure and mass, first call after
construction. -/
theorem claim_C9_witness :
    getAcceleration (updateMembers 1 (fun _ pn _ _ _ => pn)
        ⟨⟨1, 0, 0⟩, Vec3.zero, 1, 1, fun _ => ⟨0, 0, 1⟩, fun _ => 1, fun _ => 1, fun _ => 1⟩
        ⟨none, Vec3.zero, 0, 0, 0, [], Vec3.zero⟩ (some 0)) =
      vecSum ((List.range 1).map fun i =>
        getCurrentPanelAcceleration (updateMembers 1 (fun _ pn _ _ _ => pn)
          ⟨⟨1, 0, 0⟩, Vec3.zero, 1, 1, fun _ => ⟨0, 0, 1⟩, fun _ => 1, fun _ => 1, fun _ => 1⟩
          ⟨none, Vec3.zero, 0, 0, 0, [], Vec3.zero⟩ (some 0)) i) :=
  claim_C9_totalIsSumOfPanelAccelerations 1 (fun _ pn _ _ _ => pn)
    ⟨⟨1, 0, 0⟩, Vec3.zero, 1, 1, fun _ => ⟨0, 0, 1⟩, fun _ => 1, fun _ => 1, fun _ => 1⟩
    ⟨none, Vec3.zero, 0, 0, 0, [], Vec3.zero⟩ (some 0) rfl (by norm_num)

/-- C10: an `updateMembers` call with a new time at which the radiation
pressure is non-positive zeroes the total acceleration, leaves the stored
per-panel accelerations at their previous values, and is independent of the
panel-force routine and of every per-panel provider (normal, area,
emissivity, diffuse coefficient): none of them is invoked. -/
theorem claim_C10_nonpositivePressureSkipsPanels (numberOfPanels : ℕ)
    (panelForce : Vec3 → Vec3 → ℝ → ℝ → ℝ → Vec3) (p : Providers)
    (s : AccelModelState) (t : Time) (hnew : timeEq s.currentTime t = false)
    (hnp : p.radiationPressure ≤ 0) :
    getAcceleration (updateMembers numberOfPanels panelForce p s t) = Vec3.zero ∧
    (updateMembers numberOfPanels panelForce p s t).currentPanelAccelerations =
      s.currentPanelAccelerations ∧
    ∀ (panelForce' : Vec3 → Vec3 → ℝ → ℝ → ℝ → Vec3) (pn : ℕ → Vec3) (pa pe pd : ℕ → ℝ),
      updateMembers numberOfPanels panelForce'
          { p with panelSurfaceNormal := pn, panelArea := pa, panelEmissivity := pe,
                   panelDiffuseReflectionCoefficient := pd } s t =
        updateMembers numberOfPanels panelForce p s t := by
  rw [updateMembers_of_timeNe numberOfPanels panelForce p s t hnew]
  refine ⟨?_, ?_, ?_⟩
  · simp only [recomputeMembers]
    rw [if_neg (not_lt.mpr hnp)]
    rfl
  · simp only [recomputeMembers]
    rw [if_neg (not_lt.mpr hnp)]
  · intro panelForce' pn pa pe pd
    rw [updateMembers_of_timeNe numberOfPanels panelForce' _ s t hnew]
    simp only [recomputeMembers]
    rw [if_neg (not_lt.mpr hnp), if_neg (not_lt.mpr hnp)]

/-- Witness for C10: zero radiation pressure on the first call leaves the
total acceleration at zero. -/
theorem claim_C10_witness :
    getAcceleration (updateMembers 1 (fun _ pn _ _ _ => pn)
        ⟨⟨1, 0, 0⟩, Vec3.zero, 0, 1, fun _ => ⟨0, 0, 1⟩, fun _ => 1, fun _ => 1, fun _ => 1⟩
        ⟨none, Vec3.zero, 0, 0, 0, [⟨5, 6, 7⟩], Vec3.zero⟩ (some 0)) = Vec3.zero :=
  (claim_C10_nonpositivePressureSkipsPanels 1 (fun _ pn _ _ _ => pn)
    ⟨⟨1, 0, 0⟩, Vec3.zero, 0, 1, fun _ => ⟨0, 0, 1⟩, fun _ => 1, fun _ => 1, fun _ => 1⟩
    ⟨none, Vec3.zero, 0, 0, 0, [⟨5, 6, 7⟩], Vec3.zero⟩ (some 0) rfl (by norm_num)).1
